import Mathlib

/-!
Shallow embedding of the build-time configuration resolution in
src/SensorTransmitter.h of the SensorTransmitter repository.

The header is pure preprocessor logic.  We model a build configuration as the
set of macros defined when the header is preprocessed (board macros set by the
Arduino core, platform macros such as ESP32/ESP8266, and user build flags such
as USE_CC1101 or LORAWAN_NODE), and each preprocessor chain of the header as a
function on that macro set:
  - `afterBoard`       models the board chain, lines 129-213;
  - `transceiverChip`  models the TRANSCEIVER_CHIP chain, lines 219-229
                       (its `#error` branch is modelled as `none`);
  - `resolvePins`      models the PIN_TRANSCEIVER chain, lines 236-380
                       (a pin left undefined is modelled as `none`).
-/

/-- Radio transceiver chip families supported by the firmware, selected by the
macros USE_CC1101 / USE_SX1276 / USE_SX1262 / USE_LR1121. -/
inductive RadioFamily
  | CC1101
  | SX1276
  | SX1262
  | LR1121
  deriving DecidableEq, Fintype, Repr

/-- Chip label string attached to each family by the TRANSCEIVER_CHIP chain,
lines 219-229 of src/SensorTransmitter.h. -/
def chipLabel : RadioFamily → String
  | RadioFamily.CC1101 => "[CC1101]"
  | RadioFamily.SX1276 => "[SX1276]"
  | RadioFamily.SX1262 => "[SX1262]"
  | RadioFamily.LR1121 => "[LR1121]"

/-- Symbolic pin names taken verbatim from the Arduino board variant headers
and used by the pin chain (for example LORA_CS on TTGO boards, SS and DIO0 on
Heltec boards).  Their numeric values live outside this repository. -/
inductive PinSym
  | LORA_CS
  | LORA_IRQ
  | LORA_RST
  | LORA_D1
  | SS
  | DIO0
  | DIO1
  | RST_LoRa
  deriving DecidableEq, Repr

/-- A pin identifier as written in src/SensorTransmitter.h: either a numeric
GPIO literal or a symbolic constant from the board variant header. -/
inductive Pin
  | num (n : Nat)
  | sym (s : PinSym)
  deriving DecidableEq, Repr

/-- The macro set of one build of src/SensorTransmitter.h.  A field is `true`
when the corresponding preprocessor macro is defined.  Board macros (ARDUINO_*)
are set by the Arduino core for the selected board; ESP32 and ESP8266 are the
platform macros; LORAWAN_NODE and the USE_* family macros may be supplied as
external build flags.  FIREBEETLE_ESP32_COVER_LORA is normally defined by the
board chain itself (line 197) but may also be predefined.
`receiverPinsDefined` records whether the PIN_RECEIVER_CS / PIN_RECEIVER_IRQ /
PIN_RECEIVER_GPIO / PIN_RECEIVER_RST macros were defined (the LilyGo T3S3
board branches, lines 142-167, define them and nothing else in the header ever
reads them). -/
structure BuildConfig where
  ARDUINO_TTGO_LoRa32_V1 : Bool := false
  ARDUINO_TTGO_LoRa32_V2 : Bool := false
  ARDUINO_TTGO_LoRa32_v21new : Bool := false
  ARDUINO_LILYGO_T3S3_SX1262 : Bool := false
  ARDUINO_LILYGO_T3S3_SX1276 : Bool := false
  ARDUINO_LILYGO_T3S3_LR1121 : Bool := false
  ARDUINO_HELTEC_WIRELESS_STICK : Bool := false
  ARDUINO_HELTEC_WIFI_LORA_32_V2 : Bool := false
  ARDUINO_heltec_wireless_stick : Bool := false
  ARDUINO_heltec_wifi_lora_32_V2 : Bool := false
  ARDUINO_ADAFRUIT_FEATHER_ESP32S2 : Bool := false
  ARDUINO_FEATHER_ESP32 : Bool := false
  ARDUINO_AVR_FEATHER32U4 : Bool := false
  ARDUINO_ADAFRUIT_FEATHER_RP2040 : Bool := false
  ARDUINO_DFROBOT_FIREBEETLE_ESP32 : Bool := false
  ESP32 : Bool := false
  ESP8266 : Bool := false
  LORAWAN_NODE : Bool := false
  FIREBEETLE_ESP32_COVER_LORA : Bool := false
  USE_CC1101 : Bool := false
  USE_SX1276 : Bool := false
  USE_SX1262 : Bool := false
  USE_LR1121 : Bool := false
  receiverPinsDefined : Bool := false
  deriving DecidableEq, Repr

/-- The board chain, lines 129-213 of src/SensorTransmitter.h: a first-match
`#if defined(...)` / `#elif defined(...)` cascade with no `#else`.  Each branch
adds macro definitions to the build; the result is the macro set in force from
line 214 on.  In the ARDUINO_DFROBOT_FIREBEETLE_ESP32 branch, line 197 defines
FIREBEETLE_ESP32_COVER_LORA unconditionally before the inner chain of lines
199-211 runs, so the inner first branch always matches and the inner
LORAWAN_NODE and `#else` branches are unreachable. -/
def afterBoard (c : BuildConfig) : BuildConfig :=
  if c.ARDUINO_TTGO_LoRa32_V1 then { c with USE_SX1276 := true }
  else if c.ARDUINO_TTGO_LoRa32_V2 then { c with USE_SX1276 := true }
  else if c.ARDUINO_TTGO_LoRa32_v21new then { c with USE_SX1276 := true }
  else if c.ARDUINO_LILYGO_T3S3_SX1262 then
    { c with USE_SX1262 := true, receiverPinsDefined := true }
  else if c.ARDUINO_LILYGO_T3S3_SX1276 then
    { c with USE_SX1276 := true, receiverPinsDefined := true }
  else if c.ARDUINO_LILYGO_T3S3_LR1121 then
    { c with USE_LR1121 := true, receiverPinsDefined := true }
  else if c.ARDUINO_HELTEC_WIRELESS_STICK then { c with USE_SX1276 := true }
  else if c.ARDUINO_HELTEC_WIFI_LORA_32_V2 then { c with USE_SX1276 := true }
  else if c.ARDUINO_ADAFRUIT_FEATHER_ESP32S2 then { c with USE_SX1276 := true }
  else if c.ARDUINO_FEATHER_ESP32 then { c with USE_SX1276 := true }
  else if c.ARDUINO_AVR_FEATHER32U4 then { c with USE_SX1276 := true }
  else if c.ARDUINO_ADAFRUIT_FEATHER_RP2040 then { c with USE_SX1276 := true }
  else if c.ARDUINO_DFROBOT_FIREBEETLE_ESP32 then
    let c1 := { c with FIREBEETLE_ESP32_COVER_LORA := true }
    if c1.FIREBEETLE_ESP32_COVER_LORA then { c1 with USE_SX1276 := true }
    else if c1.LORAWAN_NODE then { c1 with USE_SX1276 := true }
    else c1
  else c

/-- The TRANSCEIVER_CHIP chain, lines 219-229: a first-match cascade over the
four USE_* family macros.  The `#else #error` branch, reached when none of the
four is defined, is modelled as `none`; `some f` records which family the
chain selected (the source stores the corresponding `chipLabel` string). -/
def transceiverChip (c : BuildConfig) : Option RadioFamily :=
  if c.USE_CC1101 then some RadioFamily.CC1101
  else if c.USE_SX1276 then some RadioFamily.SX1276
  else if c.USE_SX1262 then some RadioFamily.SX1262
  else if c.USE_LR1121 then some RadioFamily.LR1121
  else none

/-- Number of radio family selection macros defined in a build. -/
def familyCount (c : BuildConfig) : Nat :=
  (if c.USE_CC1101 then 1 else 0) + (if c.USE_SX1276 then 1 else 0)
    + (if c.USE_SX1262 then 1 else 0) + (if c.USE_LR1121 then 1 else 0)

/-- The four transceiver pin macros PIN_TRANSCEIVER_CS / PIN_TRANSCEIVER_IRQ /
PIN_TRANSCEIVER_GPIO (the auxiliary GPIO) / PIN_TRANSCEIVER_RST.  A component
is `none` when the corresponding macro is left undefined. -/
structure PinSet where
  cs : Option Pin
  irq : Option Pin
  auxGpio : Option Pin
  rst : Option Pin
  deriving DecidableEq, Repr

/-- The transceiver pin chain, lines 236-380 of src/SensorTransmitter.h: a
first-match cascade with no `#else`, evaluated on the macro set left by the
board chain.  When no branch matches, none of the four pin macros is defined,
modelled as `⟨none, none, none, none⟩`. -/
def resolvePins (c : BuildConfig) : PinSet :=
  if c.LORAWAN_NODE then
    ⟨some (Pin.num 14), some (Pin.num 4), some (Pin.num 16), some (Pin.num 12)⟩
  else if c.FIREBEETLE_ESP32_COVER_LORA then
    ⟨some (Pin.num 27), some (Pin.num 26), some (Pin.num 9), some (Pin.num 25)⟩
  else if c.ARDUINO_TTGO_LoRa32_V1 || c.ARDUINO_TTGO_LoRa32_V2 then
    ⟨some (Pin.sym PinSym.LORA_CS), some (Pin.sym PinSym.LORA_IRQ),
      some (Pin.num 33), some (Pin.sym PinSym.LORA_RST)⟩
  else if c.ARDUINO_TTGO_LoRa32_v21new then
    ⟨some (Pin.sym PinSym.LORA_CS), some (Pin.sym PinSym.LORA_IRQ),
      some (Pin.sym PinSym.LORA_D1), some (Pin.sym PinSym.LORA_RST)⟩
  else if c.ARDUINO_heltec_wireless_stick || c.ARDUINO_heltec_wifi_lora_32_V2 then
    ⟨some (Pin.sym PinSym.SS), some (Pin.sym PinSym.DIO0),
      some (Pin.sym PinSym.DIO1), some (Pin.sym PinSym.RST_LoRa)⟩
  else if c.ARDUINO_ADAFRUIT_FEATHER_ESP32S2 then
    ⟨some (Pin.num 6), some (Pin.num 5), some (Pin.num 11), some (Pin.num 9)⟩
  else if c.ARDUINO_FEATHER_ESP32 then
    ⟨some (Pin.num 14), some (Pin.num 32), some (Pin.num 33), some (Pin.num 27)⟩
  else if c.ESP32 then
    ⟨some (Pin.num 27), some (Pin.num 21), some (Pin.num 33), some (Pin.num 32)⟩
  else if c.ESP8266 then
    ⟨some (Pin.num 15), some (Pin.num 4), some (Pin.num 5), some (Pin.num 2)⟩
  else if c.ARDUINO_AVR_FEATHER32U4 then
    ⟨some (Pin.num 8), some (Pin.num 7), some (Pin.num 99), some (Pin.num 4)⟩
  else if c.ARDUINO_ADAFRUIT_FEATHER_RP2040 then
    ⟨some (Pin.num 7), some (Pin.num 8), some (Pin.num 10), some (Pin.num 11)⟩
  else ⟨none, none, none, none⟩

/-- All four transceiver pin macros are defined. -/
def fullPinSet (p : PinSet) : Bool :=
  p.cs.isSome && p.irq.isSome && p.auxGpio.isSome && p.rst.isSome

/-- Some branch of the transceiver pin chain (lines 236-380) matches. -/
def pinBranchMatch (c : BuildConfig) : Bool :=
  c.LORAWAN_NODE || c.FIREBEETLE_ESP32_COVER_LORA ||
    c.ARDUINO_TTGO_LoRa32_V1 || c.ARDUINO_TTGO_LoRa32_V2 ||
    c.ARDUINO_TTGO_LoRa32_v21new ||
    c.ARDUINO_heltec_wireless_stick || c.ARDUINO_heltec_wifi_lora_32_V2 ||
    c.ARDUINO_ADAFRUIT_FEATHER_ESP32S2 || c.ARDUINO_FEATHER_ESP32 ||
    c.ESP32 || c.ESP8266 ||
    c.ARDUINO_AVR_FEATHER32U4 || c.ARDUINO_ADAFRUIT_FEATHER_RP2040

/-- Some pin-chain branch strictly before the generic ESP32 branch (line 328)
matches, i.e. the build has a dedicated pin mapping. -/
def dedicatedPinBranch (c : BuildConfig) : Bool :=
  c.LORAWAN_NODE || c.FIREBEETLE_ESP32_COVER_LORA ||
    c.ARDUINO_TTGO_LoRa32_V1 || c.ARDUINO_TTGO_LoRa32_V2 ||
    c.ARDUINO_TTGO_LoRa32_v21new ||
    c.ARDUINO_heltec_wireless_stick || c.ARDUINO_heltec_wifi_lora_32_V2 ||
    c.ARDUINO_ADAFRUIT_FEATHER_ESP32S2 || c.ARDUINO_FEATHER_ESP32

/-- The named hardware targets of the board chain, lines 129-213: one per
`#elif defined(ARDUINO_...)` branch. -/
inductive Target
  | TTGO_LoRa32_V1
  | TTGO_LoRa32_V2
  | TTGO_LoRa32_v21new
  | LILYGO_T3S3_SX1262
  | LILYGO_T3S3_SX1276
  | LILYGO_T3S3_LR1121
  | HELTEC_WIRELESS_STICK
  | HELTEC_WIFI_LORA_32_V2
  | ADAFRUIT_FEATHER_ESP32S2
  | FEATHER_ESP32
  | AVR_FEATHER32U4
  | ADAFRUIT_FEATHER_RP2040
  | DFROBOT_FIREBEETLE_ESP32
  deriving DecidableEq, Fintype, Repr

/-- The macro set the Arduino build system supplies for each named target: the
board macro tested by the board chain plus the platform macro (ESP32 for the
ESP32-family boards, per the variant links in the header comments; the Feather
32u4 is AVR and the Feather RP2040 is RP2040, so neither ESP32 nor ESP8266 is
defined for them).  For the Heltec boards the board chain tests the upper-case
spellings ARDUINO_HELTEC_WIRELESS_STICK / ARDUINO_HELTEC_WIFI_LORA_32_V2
(lines 169-173), which is what current Arduino cores define; the pin chain at
line 289 tests the older lower-case spellings, which are then not defined. -/
def configOfTarget : Target → BuildConfig
  | Target.TTGO_LoRa32_V1 => { ARDUINO_TTGO_LoRa32_V1 := true, ESP32 := true }
  | Target.TTGO_LoRa32_V2 => { ARDUINO_TTGO_LoRa32_V2 := true, ESP32 := true }
  | Target.TTGO_LoRa32_v21new => { ARDUINO_TTGO_LoRa32_v21new := true, ESP32 := true }
  | Target.LILYGO_T3S3_SX1262 => { ARDUINO_LILYGO_T3S3_SX1262 := true, ESP32 := true }
  | Target.LILYGO_T3S3_SX1276 => { ARDUINO_LILYGO_T3S3_SX1276 := true, ESP32 := true }
  | Target.LILYGO_T3S3_LR1121 => { ARDUINO_LILYGO_T3S3_LR1121 := true, ESP32 := true }
  | Target.HELTEC_WIRELESS_STICK => { ARDUINO_HELTEC_WIRELESS_STICK := true, ESP32 := true }
  | Target.HELTEC_WIFI_LORA_32_V2 => { ARDUINO_HELTEC_WIFI_LORA_32_V2 := true, ESP32 := true }
  | Target.ADAFRUIT_FEATHER_ESP32S2 => { ARDUINO_ADAFRUIT_FEATHER_ESP32S2 := true, ESP32 := true }
  | Target.FEATHER_ESP32 => { ARDUINO_FEATHER_ESP32 := true, ESP32 := true }
  | Target.AVR_FEATHER32U4 => { ARDUINO_AVR_FEATHER32U4 := true }
  | Target.ADAFRUIT_FEATHER_RP2040 => { ARDUINO_ADAFRUIT_FEATHER_RP2040 := true }
  | Target.DFROBOT_FIREBEETLE_ESP32 => { ARDUINO_DFROBOT_FIREBEETLE_ESP32 := true, ESP32 := true }

/-- The frame encoder variants, `enum struct Encoders` at lines 65-71 of
src/SensorTransmitter.h. -/
inductive Encoders
  | ENC_BRESSER_5IN1
  | ENC_BRESSER_6IN1
  | ENC_BRESSER_7IN1
  | ENC_BRESSER_LEAKAGE
  | ENC_BRESSER_LIGHTNING
  deriving DecidableEq, Fintype, Repr

/-- Transmit interval in seconds, line 63 of src/SensorTransmitter.h. -/
def TX_INTERVAL : Nat := 30

/-- Modelled from the spec: the transmission scheduler loop that consumes
TX_INTERVAL is in the sketch, not under src/.  Spec section 4.5: the
Idle-to-Preparing transition triggers when the fixed interval (TX_INTERVAL
seconds, measured from the end of the previous cycle) elapses. -/
def txCycleDue (lastCycleEnd now : Nat) : Bool :=
  decide (lastCycleEnd + TX_INTERVAL ≤ now)

/-- The payload source kinds of the spec data model, corresponding to the
macros DATA_RAW / DATA_GEN / DATA_JSON_CONST / DATA_JSON_INPUT declared at
lines 57-61 of src/SensorTransmitter.h. -/
inductive PayloadSourceKind
  | Raw
  | GeneratedFromSensorModel
  | FixedJson
  | SerialJson
  deriving DecidableEq, Fintype, Repr

/-- Which of the four payload source macros (lines 57-61) a build defines. -/
structure PayloadSelection where
  DATA_RAW : Bool := false
  DATA_GEN : Bool := false
  DATA_JSON_CONST : Bool := false
  DATA_JSON_INPUT : Bool := false
  deriving DecidableEq, Fintype, Repr

/-- The selection shipped in the header itself: line 61 defines
DATA_JSON_INPUT and the other three are commented out. -/
def headerPayloadSelection : PayloadSelection := { DATA_JSON_INPUT := true }

/-- Modelled from the spec: the payload source multiplexer that consumes the
DATA_* macros is in the sketch, not under src/ (the header only declares the
selection).  Spec section 4.3: exactly one PayloadSourceKind is active per
build, with the same exactly-one, fail-otherwise discipline as the radio
family group; anything else fails resolution, modelled as `none`. -/
def resolvePayloadSource (s : PayloadSelection) : Option PayloadSourceKind :=
  match s.DATA_RAW, s.DATA_GEN, s.DATA_JSON_CONST, s.DATA_JSON_INPUT with
  | true, false, false, false => some PayloadSourceKind.Raw
  | false, true, false, false => some PayloadSourceKind.GeneratedFromSensorModel
  | false, false, true, false => some PayloadSourceKind.FixedJson
  | false, false, false, true => some PayloadSourceKind.SerialJson
  | _, _, _, _ => none

/-- Number of payload source macros defined in a build. -/
def payloadCount (s : PayloadSelection) : Nat :=
  (if s.DATA_RAW then 1 else 0) + (if s.DATA_GEN then 1 else 0)
    + (if s.DATA_JSON_CONST then 1 else 0) + (if s.DATA_JSON_INPUT then 1 else 0)

/-- A build that defines two radio family macros at once. -/
def twoFamilies : BuildConfig := { USE_CC1101 := true, USE_SX1276 := true }

/-- A Firebeetle ESP32 build that additionally defines LORAWAN_NODE, so that
both mutually exclusive Firebeetle targets are defined after the board chain
runs. -/
def bothFirebeetleTargets : BuildConfig :=
  { ARDUINO_DFROBOT_FIREBEETLE_ESP32 := true, LORAWAN_NODE := true, ESP32 := true }

/-- A build on an unrecognized platform (no board macro, neither ESP32 nor
ESP8266) whose user defined a radio family externally. -/
def unknownPlatform : BuildConfig := { USE_SX1276 := true }

/-- A build that defines two payload source macros at once. -/
def twoPayloadSources : PayloadSelection := { DATA_RAW := true, DATA_GEN := true }

/-- Claim C1: for every supported hardware target named in the board chain,
resolution yields all four transceiver pin macros defined and exactly one
radio family selected; no target yields a partial pin set. -/
theorem supported_target_resolution_complete :
    ∀ t : Target,
      fullPinSet (resolvePins (afterBoard (configOfTarget t))) = true
        ∧ familyCount (afterBoard (configOfTarget t)) = 1
        ∧ (transceiverChip (afterBoard (configOfTarget t))).isSome = true := by
  decide

/-- Claim C2, counterexample: a build defining both USE_CC1101 and USE_SX1276
is not rejected; the TRANSCEIVER_CHIP chain silently yields CC1101, the first
match, so resolution with two selected families does not fail. -/
theorem two_families_selected_first_wins_cex :
    familyCount (afterBoard twoFamilies) = 2
      ∧ transceiverChip (afterBoard twoFamilies) = some RadioFamily.CC1101
      ∧ transceiverChip (afterBoard twoFamilies) ≠ none := by
  decide

/-- Claim C2, amended: selecting zero radio families fails at build time (the
`#error` branch), but selecting more than one does not fail; the chain
silently picks the first defined family in the order CC1101, SX1276, SX1262,
LR1121. -/
theorem transceiver_chip_first_match :
    ∀ c : BuildConfig,
      (c.USE_CC1101 = false → c.USE_SX1276 = false → c.USE_SX1262 = false →
        c.USE_LR1121 = false → transceiverChip c = none)
        ∧ (c.USE_CC1101 = true → transceiverChip c = some RadioFamily.CC1101)
        ∧ (c.USE_CC1101 = false → c.USE_SX1276 = true →
            transceiverChip c = some RadioFamily.SX1276)
        ∧ (c.USE_CC1101 = false → c.USE_SX1276 = false → c.USE_SX1262 = true →
            transceiverChip c = some RadioFamily.SX1262)
        ∧ (c.USE_CC1101 = false → c.USE_SX1276 = false → c.USE_SX1262 = false →
            c.USE_LR1121 = true → transceiverChip c = some RadioFamily.LR1121) := by
  intro c
  refine ⟨?_, ?_, ?_, ?_, ?_⟩ <;> intros <;> simp [transceiverChip, *]

/-- Claim C2, witness for the amended theorem at a concrete build. -/
theorem transceiver_chip_first_match_witness :
    transceiverChip twoFamilies = some RadioFamily.CC1101 :=
  (transceiver_chip_first_match twoFamilies).2.1 rfl

/-- Claim C3: a payload source selection with zero or at least two of the
DATA_* macros defined fails resolution, and the selection shipped in the
header (DATA_JSON_INPUT only) resolves to the serial JSON source. -/
theorem payload_source_exactly_one :
    (∀ s : PayloadSelection, payloadCount s = 0 ∨ 2 ≤ payloadCount s →
      resolvePayloadSource s = none)
      ∧ resolvePayloadSource headerPayloadSelection = some PayloadSourceKind.SerialJson := by
  constructor
  · intro s h
    revert h
    revert s
    decide
  · decide

/-- Claim C3, witness at a concrete selection with two sources defined. -/
theorem payload_source_exactly_one_witness :
    resolvePayloadSource twoPayloadSources = none :=
  payload_source_exactly_one.1 twoPayloadSources (Or.inr (by decide))

/-- Claim C4, counterexample: a Firebeetle ESP32 build with LORAWAN_NODE also
defined has both mutually exclusive targets defined after the board chain, yet
resolution does not fail: the board chain selects SX1276 via the
FIREBEETLE_ESP32_COVER_LORA branch while the pin chain, whose first branch
tests LORAWAN_NODE, yields the LoRaWAN_Node pin set. -/
theorem firebeetle_dual_target_cex :
    (afterBoard bothFirebeetleTargets).LORAWAN_NODE = true
      ∧ (afterBoard bothFirebeetleTargets).FIREBEETLE_ESP32_COVER_LORA = true
      ∧ transceiverChip (afterBoard bothFirebeetleTargets) = some RadioFamily.SX1276
      ∧ resolvePins (afterBoard bothFirebeetleTargets)
          = ⟨some (Pin.num 14), some (Pin.num 4), some (Pin.num 16), some (Pin.num 12)⟩ := by
  decide

/-- Claim C4, amended: a build with both Firebeetle targets defined is not
rejected; whenever LORAWAN_NODE is defined the pin chain takes its branch
(pins 14, 4, 16, 12), while the board chain still resolves the family to
SX1276 through the FIREBEETLE_ESP32_COVER_LORA branch, so the build succeeds
with a mixed configuration and only informational pragma messages. -/
theorem firebeetle_dual_target_mixed_resolution :
    (∀ c : BuildConfig, c.LORAWAN_NODE = true →
      resolvePins c
        = ⟨some (Pin.num 14), some (Pin.num 4), some (Pin.num 16), some (Pin.num 12)⟩)
      ∧ transceiverChip (afterBoard bothFirebeetleTargets) = some RadioFamily.SX1276
      ∧ fullPinSet (resolvePins (afterBoard bothFirebeetleTargets)) = true := by
  refine ⟨?_, by decide, by decide⟩
  intro c h
  simp [resolvePins, h]

/-- Claim C4, witness for the amended theorem at the concrete dual-target
build. -/
theorem firebeetle_dual_target_mixed_resolution_witness :
    resolvePins (afterBoard bothFirebeetleTargets)
      = ⟨some (Pin.num 14), some (Pin.num 4), some (Pin.num 16), some (Pin.num 12)⟩ :=
  firebeetle_dual_target_mixed_resolution.1 (afterBoard bothFirebeetleTargets) (by decide)

/-- Claim C5: every ESP32 build that matches no dedicated branch of the
transceiver pin chain resolves to the generic ESP32 defaults CS 27, IRQ 21,
auxiliary GPIO 33, RST 32; in particular each of the three LilyGo T3S3
targets, whose board branch defines only the receiver pin macros (which
nothing else in the header reads), resolves to those defaults. -/
theorem t3s3_generic_esp32_pins :
    (∀ c : BuildConfig, c.ESP32 = true → dedicatedPinBranch c = false →
      resolvePins c
        = ⟨some (Pin.num 27), some (Pin.num 21), some (Pin.num 33), some (Pin.num 32)⟩)
      ∧ (∀ t : Target,
          (t = Target.LILYGO_T3S3_SX1262 ∨ t = Target.LILYGO_T3S3_SX1276 ∨
            t = Target.LILYGO_T3S3_LR1121) →
          (afterBoard (configOfTarget t)).receiverPinsDefined = true
            ∧ resolvePins (afterBoard (configOfTarget t))
                = ⟨some (Pin.num 27), some (Pin.num 21), some (Pin.num 33),
                    some (Pin.num 32)⟩) := by
  constructor
  · intro c h1 h2
    simp only [dedicatedPinBranch, Bool.or_eq_false_iff] at h2
    obtain ⟨⟨⟨⟨⟨⟨⟨⟨h3, h4⟩, h5⟩, h6⟩, h7⟩, h8⟩, h9⟩, h10⟩, h11⟩ := h2
    simp [resolvePins, h1, h3, h4, h5, h6, h7, h8, h9, h10, h11]
  · decide

/-- Claim C5, witness at the LilyGo T3S3 SX1262 build. -/
theorem t3s3_generic_esp32_pins_witness :
    resolvePins (afterBoard (configOfTarget Target.LILYGO_T3S3_SX1262))
      = ⟨some (Pin.num 27), some (Pin.num 21), some (Pin.num 33), some (Pin.num 32)⟩ :=
  t3s3_generic_esp32_pins.1 (afterBoard (configOfTarget Target.LILYGO_T3S3_SX1262))
    (by decide) (by decide)

/-- Claim C6, counterexample: a build on an unrecognized platform (no board
macro, neither ESP32 nor ESP8266) with USE_SX1276 supplied externally is not
rejected: the family resolves to SX1276, the `#error` branch is not reached,
and the pin chain leaves all four transceiver pin macros undefined. -/
theorem unknown_platform_not_rejected_cex :
    transceiverChip (afterBoard unknownPlatform) = some RadioFamily.SX1276
      ∧ resolvePins (afterBoard unknownPlatform) = ⟨none, none, none, none⟩
      ∧ fullPinSet (resolvePins (afterBoard unknownPlatform)) = false := by
  decide

/-- Claim C6, amended: the only build-time rejection in the resolver is the
TRANSCEIVER_CHIP `#error`, reached exactly when no radio family macro is
defined; the pin chain has no failure branch, so a build matching no pin
branch resolves with all four pins undefined instead of being rejected (the
pin set is complete exactly when some pin branch matches). -/
theorem resolver_rejection_characterisation :
    ∀ c : BuildConfig,
      (transceiverChip c = none ↔
        c.USE_CC1101 = false ∧ c.USE_SX1276 = false ∧ c.USE_SX1262 = false ∧
          c.USE_LR1121 = false)
        ∧ fullPinSet (resolvePins c) = pinBranchMatch c := by
  intro c
  constructor
  · unfold transceiverChip
    split_ifs <;> simp_all
  · cases h1 : c.LORAWAN_NODE with
    | true => simp [resolvePins, fullPinSet, pinBranchMatch, h1]
    | false =>
    cases h2 : c.FIREBEETLE_ESP32_COVER_LORA with
    | true => simp [resolvePins, fullPinSet, pinBranchMatch, h1, h2]
    | false =>
    cases h3 : c.ARDUINO_TTGO_LoRa32_V1 with
    | true => simp [resolvePins, fullPinSet, pinBranchMatch, h1, h2, h3]
    | false =>
    cases h4 : c.ARDUINO_TTGO_LoRa32_V2 with
    | true => simp [resolvePins, fullPinSet, pinBranchMatch, h1, h2, h3, h4]
    | false =>
    cases h5 : c.ARDUINO_TTGO_LoRa32_v21new with
    | true => simp [resolvePins, fullPinSet, pinBranchMatch, h1, h2, h3, h4, h5]
    | false =>
    cases h6 : c.ARDUINO_heltec_wireless_stick with
    | true => simp [resolvePins, fullPinSet, pinBranchMatch, h1, h2, h3, h4, h5, h6]
    | false =>
    cases h7 : c.ARDUINO_heltec_wifi_lora_32_V2 with
    | true => simp [resolvePins, fullPinSet, pinBranchMatch, h1, h2, h3, h4, h5, h6, h7]
    | false =>
    cases h8 : c.ARDUINO_ADAFRUIT_FEATHER_ESP32S2 with
    | true => simp [resolvePins, fullPinSet, pinBranchMatch, h1, h2, h3, h4, h5, h6, h7, h8]
    | false =>
    cases h9 : c.ARDUINO_FEATHER_ESP32 with
    | true =>
      simp [resolvePins, fullPinSet, pinBranchMatch, h1, h2, h3, h4, h5, h6, h7, h8, h9]
    | false =>
    cases h10 : c.ESP32 with
    | true =>
      simp [resolvePins, fullPinSet, pinBranchMatch, h1, h2, h3, h4, h5, h6, h7, h8, h9, h10]
    | false =>
    cases h11 : c.ESP8266 with
    | true =>
      simp [resolvePins, fullPinSet, pinBranchMatch, h1, h2, h3, h4, h5, h6, h7, h8, h9, h10,
        h11]
    | false =>
    cases h12 : c.ARDUINO_AVR_FEATHER32U4 with
    | true =>
      simp [resolvePins, fullPinSet, pinBranchMatch, h1, h2, h3, h4, h5, h6, h7, h8, h9, h10,
        h11, h12]
    | false =>
    cases h13 : c.ARDUINO_ADAFRUIT_FEATHER_RP2040 with
    | true =>
      simp [resolvePins, fullPinSet, pinBranchMatch, h1, h2, h3, h4, h5, h6, h7, h8, h9, h10,
        h11, h12, h13]
    | false =>
      simp [resolvePins, fullPinSet, pinBranchMatch, h1, h2, h3, h4, h5, h6, h7, h8, h9, h10,
        h11, h12, h13]

/-- Claim C7: each hardware target that implies a radio family resolves to
exactly that family: the TTGO, Heltec, Adafruit Feather and Firebeetle targets
to SX1276, and each LilyGo T3S3 variant to the family in its name. -/
theorem target_implied_family :
    transceiverChip (afterBoard (configOfTarget Target.TTGO_LoRa32_V1))
        = some RadioFamily.SX1276
      ∧ transceiverChip (afterBoard (configOfTarget Target.TTGO_LoRa32_V2))
          = some RadioFamily.SX1276
      ∧ transceiverChip (afterBoard (configOfTarget Target.TTGO_LoRa32_v21new))
          = some RadioFamily.SX1276
      ∧ transceiverChip (afterBoard (configOfTarget Target.LILYGO_T3S3_SX1262))
          = some RadioFamily.SX1262
      ∧ transceiverChip (afterBoard (configOfTarget Target.LILYGO_T3S3_SX1276))
          = some RadioFamily.SX1276
      ∧ transceiverChip (afterBoard (configOfTarget Target.LILYGO_T3S3_LR1121))
          = some RadioFamily.LR1121
      ∧ transceiverChip (afterBoard (configOfTarget Target.HELTEC_WIRELESS_STICK))
          = some RadioFamily.SX1276
      ∧ transceiverChip (afterBoard (configOfTarget Target.HELTEC_WIFI_LORA_32_V2))
          = some RadioFamily.SX1276
      ∧ transceiverChip (afterBoard (configOfTarget Target.ADAFRUIT_FEATHER_ESP32S2))
          = some RadioFamily.SX1276
      ∧ transceiverChip (afterBoard (configOfTarget Target.FEATHER_ESP32))
          = some RadioFamily.SX1276
      ∧ transceiverChip (afterBoard (configOfTarget Target.AVR_FEATHER32U4))
          = some RadioFamily.SX1276
      ∧ transceiverChip (afterBoard (configOfTarget Target.ADAFRUIT_FEATHER_RP2040))
          = some RadioFamily.SX1276
      ∧ transceiverChip (afterBoard (configOfTarget Target.DFROBOT_FIREBEETLE_ESP32))
          = some RadioFamily.SX1276 := by
  decide

/-- Claim C8: the encoder kind enumeration has exactly the five recognized
variants; every value of the type is one of the five. -/
theorem encoders_closed_five :
    (∀ e : Encoders,
      e = Encoders.ENC_BRESSER_5IN1 ∨ e = Encoders.ENC_BRESSER_6IN1 ∨
        e = Encoders.ENC_BRESSER_7IN1 ∨ e = Encoders.ENC_BRESSER_LEAKAGE ∨
        e = Encoders.ENC_BRESSER_LIGHTNING)
      ∧ Fintype.card Encoders = 5 := by
  constructor
  · intro e
    cases e <;> simp
  · rfl

/-- Claim C9: the default transmit interval is 30 seconds, and the cycle gate
(modelled from the spec, since the scheduler loop is in the sketch) fires
exactly when 30 seconds have elapsed since the end of the previous cycle. -/
theorem tx_interval_default_thirty :
    TX_INTERVAL = 30
      ∧ ∀ lastEnd now : Nat, txCycleDue lastEnd now = true ↔ lastEnd + 30 ≤ now := by
  constructor
  · rfl
  · intro a b
    simp [txCycleDue, TX_INTERVAL]

/-- Claim C10: targets whose radio wiring does not use the auxiliary GPIO pin
still define it explicitly rather than omitting it: the Adafruit Feather 32u4
branch defines it as the out-of-range sentinel 99 (marked not used in the
source) and the Feather RP2040 branch as 10 (also marked not used), and both
targets resolve a full four-pin set. -/
theorem unused_aux_pin_explicit :
    (resolvePins (afterBoard (configOfTarget Target.AVR_FEATHER32U4))).auxGpio
        = some (Pin.num 99)
      ∧ fullPinSet (resolvePins (afterBoard (configOfTarget Target.AVR_FEATHER32U4))) = true
      ∧ (resolvePins (afterBoard (configOfTarget Target.ADAFRUIT_FEATHER_RP2040))).auxGpio
          = some (Pin.num 10)
      ∧ fullPinSet (resolvePins (afterBoard (configOfTarget Target.ADAFRUIT_FEATHER_RP2040)))
          = true := by
  decide
